import Mathlib

/-
Verification of the stream-llm server-sent-events library.

The development shallowly embeds the code of src/EventBuffer.ts,
src/Session.ts, src/Channel.ts, src/utils/serialize.ts and
src/utils/sanitize.ts.  JavaScript payload values are modelled by `Js`
(JSON serialization itself is a platform builtin that the specification
declares out of scope, so one level of object/array nesting is modelled,
which covers every payload the claims mention).  Exceptions are modelled
by `Except`/`Option JsErr`; buffer and connection state is passed
explicitly.
-/

namespace StreamLLM

/-- One JavaScript-level error value: `TypeError` thrown by a string method
applied to a non-string, the `SseError` thrown on pushes to non-connected
sessions, and arbitrary errors thrown by user-supplied hooks. -/
inductive JsErr where
  | typeError
  | sseStateError
  | hookErr (n : Nat)
deriving DecidableEq

/-- A primitive JSON value, used for the fields of one level of
object/array nesting in `Js`. -/
inductive JsPrim where
  | pStr (s : String)
  | pNum (n : Int)
  | pBool (b : Bool)
  | pNull
deriving DecidableEq

/-- Model of the JavaScript values a payload (or a hook result) may take:
strings, numbers, booleans, null, `undefined`, and one level of
object/array nesting. -/
inductive Js where
  | str (s : String)
  | num (n : Int)
  | jsBool (b : Bool)
  | jsNull
  | jsUndefined
  | obj (fields : List (String × JsPrim))
  | arr (elems : List JsPrim)
deriving DecidableEq

/-- Hexadecimal digit character for `\uXXXX` escapes. -/
def hexDigit (n : Nat) : Char :=
  if n < 10 then Char.ofNat (48 + n) else Char.ofNat (87 + n)

/-- Four-digit hexadecimal rendering of a code point below 0x10000. -/
def hex4 (n : Nat) : String :=
  String.mk [hexDigit (n / 4096 % 16), hexDigit (n / 256 % 16),
             hexDigit (n / 16 % 16), hexDigit (n % 16)]

/-- JSON escaping of a single character, as performed by `JSON.stringify`
on the characters of a string. -/
def escapeChar (c : Char) : String :=
  if c = '"' then "\\\""
  else if c = '\\' then "\\\\"
  else if c = '\n' then "\\n"
  else if c = '\r' then "\\r"
  else if c = '\t' then "\\t"
  else if c = Char.ofNat 8 then "\\b"
  else if c = Char.ofNat 12 then "\\f"
  else if c.toNat < 32 then "\\u" ++ hex4 c.toNat
  else String.mk [c]

/-- JSON string literal for `s`, double quotes included. -/
def jsonQuote (s : String) : String :=
  "\"" ++ String.join (s.data.map escapeChar) ++ "\""

/-- Join a list of strings with a separator (like `Array.prototype.join`). -/
def joinSep (sep : String) : List String → String
  | [] => ""
  | [t] => t
  | t :: ts => t ++ sep ++ joinSep sep ts

/-- `JSON.stringify` on a primitive value. -/
def primStringify : JsPrim → String
  | .pStr s => jsonQuote s
  | .pNum n => n.repr
  | .pBool b => if b then "true" else "false"
  | .pNull => "null"

/-- `JSON.stringify` on a `Js` value; `none` models the `undefined` result
returned for an `undefined` argument. -/
def jsonStringify : Js → Option String
  | .str s => some (jsonQuote s)
  | .num n => some n.repr
  | .jsBool b => some (if b then "true" else "false")
  | .jsNull => some "null"
  | .jsUndefined => none
  | .obj fields =>
      some ("\x7b" ++
        joinSep "," (fields.map (fun kv => jsonQuote kv.1 ++ ":" ++ primStringify kv.2)) ++
        "\x7d")
  | .arr elems =>
      some ("[" ++ joinSep "," (elems.map primStringify) ++ "]")

/-- The default serializer of src/utils/serialize.ts: strings pass through
unchanged, everything else goes through `JSON.stringify` (whose result is
`undefined`, not a string, when the argument is `undefined`). -/
def serialize : Js → Js
  | .str s => .str s
  | v =>
      match jsonStringify v with
      | some s => .str s
      | none => .jsUndefined

/-- The default serializer as a hook.  It never throws. -/
def serializerHook : Js → Except JsErr Js :=
  fun data => .ok (serialize data)

/-- `s.replace(/\r\n/g, "\n")` on the character list. -/
def replaceCRLF : List Char → List Char
  | [] => []
  | '\r' :: '\n' :: rest => '\n' :: replaceCRLF rest
  | c :: rest => c :: replaceCRLF rest

/-- `s.replace(/\r/g, "\n")` on the character list. -/
def replaceCR : List Char → List Char
  | [] => []
  | '\r' :: rest => '\n' :: replaceCR rest
  | c :: rest => c :: replaceCR rest

/-- `s.replace(/\n/g, " ")` on the character list. -/
def replaceLF : List Char → List Char
  | [] => []
  | '\n' :: rest => ' ' :: replaceLF rest
  | c :: rest => c :: replaceLF rest

/-- The string pipeline of the default sanitizer in src/utils/sanitize.ts:
normalize `\r\n` and `\r` to `\n`, then replace every `\n` by a space. -/
def sanitizeString (s : String) : String :=
  String.mk (replaceLF (replaceCR (replaceCRLF s.data)))

/-- The default sanitizer of src/utils/sanitize.ts as a hook: it calls
`.replace` on its argument, which throws a `TypeError` when the argument
is not a string (in particular when the default serializer returned
`undefined`). -/
def sanitize : Js → Except JsErr Js
  | .str s => .ok (.str (sanitizeString s))
  | _ => .error .typeError

/-- `s.split("\n")` on the character list: JavaScript splitting always
yields at least one (possibly empty) piece. -/
def splitChars : List Char → List (List Char)
  | [] => [[]]
  | '\n' :: rest =>
      [] :: splitChars rest
  | c :: rest =>
      match splitChars rest with
      | [] => [[c]]
      | piece :: pieces => (c :: piece) :: pieces

/-- `s.split("\n")` as called by `EventBuffer.push` on the sanitized text. -/
def splitOnNewline (s : String) : List String :=
  (splitChars s.data).map String.mk

/-- `.split("\n")` applied to an arbitrary JavaScript value: a `TypeError`
is thrown when the value is not a string. -/
def splitLines : Js → Except JsErr (List String)
  | .str s => .ok (splitOnNewline s)
  | _ => .error .typeError

/-- The `data:` lines of one event frame, one line per line of the
sanitized text (`EventBuffer.push`, the loop over `sanitized.split("\n")`). -/
def dataLines (lines : List String) : String :=
  String.join (lines.map (fun l => "data: " ++ l ++ "\n"))

/-- The text `EventBuffer.push` appends to its accumulator for one event,
paired with the error thrown, if any, in source order: serializer hook,
sanitizer hook, then (after the `id:`/`event:` lines are already
determined) the `.split("\n")` call.  On a hook error nothing is
appended; on a `.split` error the `id:`/`event:` lines are the partial
text already appended. -/
def pushText (ser san : Js → Except JsErr Js) (data : Js)
    (eventName eventId : String) : String × Option JsErr :=
  match ser data with
  | .error e => ("", some e)
  | .ok serialized =>
    match san serialized with
    | .error e => ("", some e)
    | .ok sanitized =>
      let t1 := if eventId ≠ "" then "id: " ++ eventId ++ "\n" else ""
      let t2 := t1 ++ (if eventName ≠ "" ∧ eventName ≠ "message"
                        then "event: " ++ eventName ++ "\n" else "")
      match splitLines sanitized with
      | .error e => (t2, some e)
      | .ok lines => (t2 ++ dataLines lines ++ "\n", none)

/-- `EventBuffer.push`: the new accumulator contents and the error thrown,
if any. -/
def bufferPush (ser san : Js → Except JsErr Js) (buf : String) (data : Js)
    (eventName eventId : String) : String × Option JsErr :=
  let r := pushText ser san data eventName eventId
  (buf ++ r.1, r.2)

/-- The text `EventBuffer.comment` appends: `: <text>\n\n`. -/
def commentText (text : String) : String :=
  ": " ++ text ++ "\n\n"

/-- The text `EventBuffer.retry` appends: `retry: <ms>\n\n`. -/
def retryText (time : Nat) : String :=
  "retry: " ++ Nat.repr time ++ "\n\n"

/-- One operation an application may perform on the `EventBuffer` handed to
the callback of `Session.batch`. -/
inductive BufOp where
  | push (data : Js) (eventName eventId : String)
  | comment (text : String)
  | retryDir (time : Nat)
deriving DecidableEq

/-- The text one buffer operation appends (from an empty accumulator) and
the error it throws, if any. -/
def opText (ser san : Js → Except JsErr Js) : BufOp → String × Option JsErr
  | .push d n i => pushText ser san d n i
  | .comment t => (commentText t, none)
  | .retryDir t => (retryText t, none)

/-- Apply one buffer operation to an accumulator. -/
def applyOp (ser san : Js → Except JsErr Js) (buf : String) (op : BufOp) :
    String × Option JsErr :=
  let r := opText ser san op
  (buf ++ r.1, r.2)

/-- Apply a list of buffer operations in order, stopping at the first error
(an exception inside the batch callback aborts the remaining calls). -/
def applyOps (ser san : Js → Except JsErr Js) :
    String → List BufOp → String × Option JsErr
  | buf, [] => (buf, none)
  | buf, op :: rest =>
    match applyOp ser san buf op with
    | (b, some e) => (b, some e)
    | (b, none) => applyOps ser san b rest

/-- Concatenation of a list of frame texts in order. -/
def concatTexts : List String → String
  | [] => ""
  | t :: ts => t ++ concatTexts ts

/-- The observable state of one `Session`: the tracked last event id, the
connection flag, the private buffer accumulator, the ordered list of
chunks written to the underlying connection, and whether the keep-alive
timer is active. -/
structure SessionState where
  lastId : String
  isConnected : Bool
  buffer : String
  writes : List String
  keepAliveActive : Bool
deriving DecidableEq

/-- A session as constructed, before the scheduled bootstrap has run:
not connected, empty buffer, nothing written, no timer; `lastId` holds
the seed computed by the constructor. -/
def freshSession (seed : String) : SessionState :=
  { lastId := seed, isConnected := false, buffer := "", writes := [],
    keepAliveActive := false }

/-- A session in the connected state with empty buffer and no writes
recorded yet. -/
def connectedSession : SessionState :=
  { lastId := "", isConnected := true, buffer := "", writes := [],
    keepAliveActive := true }

/-- The configuration of a `Session` that matters to its bootstrap step:
the two padding query parameters, the `retry` option (`none` when
disabled) and the `keepAlive` option (`none` when disabled). -/
structure SessCfg where
  hasPadding : Bool
  hasPreamble : Bool
  initialRetry : Option Nat
  keepAlive : Option Nat

/-- The default configuration: no padding parameters, `retry` 2000 ms,
`keepAlive` 10000 ms. -/
def cfg0 : SessCfg :=
  { hasPadding := false, hasPreamble := false, initialRetry := some 2000,
    keepAlive := some 10000 }

/-- `Session.initialize`, the bootstrap step scheduled by the constructor:
send the head, queue optional padding comments and the optional retry
directive, flush once, start the keep-alive timer if configured, mark the
session connected.  The code runs this unconditionally when the scheduled
callback fires. -/
def sessionInit (cfg : SessCfg) (s : SessionState) : SessionState :=
  let b1 := if cfg.hasPadding
            then s.buffer ++ commentText (String.mk (List.replicate 2049 ' '))
            else s.buffer
  let b2 := if cfg.hasPreamble
            then b1 ++ commentText (String.mk (List.replicate 2056 ' '))
            else b1
  let b3 := match cfg.initialRetry with
            | some r => b2 ++ retryText r
            | none => b2
  { s with buffer := "", writes := s.writes ++ [b3],
           keepAliveActive := cfg.keepAlive.isSome, isConnected := true }

/-- `Session.onDisconnected`: detach the abort listener, clean up the
connection, stop the keep-alive timer, clear the connected flag. -/
def onDisconnected (s : SessionState) : SessionState :=
  { s with keepAliveActive := false, isConnected := false }

/-- `Session.push`: throws an `SseError` when the session is not connected
(before anything is written); otherwise delegates to the buffer, flushes
the accumulated text as one chunk, and records the event id as `lastId`.
A hook error propagates and leaves the partial buffer text exactly as the
buffer left it (nothing, for hook errors). -/
def sessionPush (ser san : Js → Except JsErr Js) (s : SessionState)
    (data : Js) (eventName eventId : String) : SessionState × Option JsErr :=
  if s.isConnected = false then (s, some JsErr.sseStateError)
  else
    match pushText ser san data eventName eventId with
    | (t, some e) => ({ s with buffer := s.buffer ++ t }, some e)
    | (t, none) =>
        ({ s with buffer := "",
                  writes := s.writes ++ [s.buffer ++ t],
                  lastId := eventId }, none)

/-- `Session.batch`: run the buffer operations of the callback on the
session's private buffer, then flush exactly once.  The code performs no
connected check here and never touches `lastId`.  An error inside the
callback propagates before the flush happens. -/
def sessionBatch (ser san : Js → Except JsErr Js) (s : SessionState)
    (ops : List BufOp) : SessionState × Option JsErr :=
  match applyOps ser san s.buffer ops with
  | (b, some e) => ({ s with buffer := b }, some e)
  | (b, none) => ({ s with buffer := "", writes := s.writes ++ [b] }, none)

/-- Sequential `Session.push` calls: each entry is payload, event name and
resolved event id (the id the caller supplied, or the freshly generated
identifier used when the caller omitted it). -/
def pushList (ser san : Js → Except JsErr Js) :
    SessionState → List (Js × String × String) → SessionState
  | s, [] => s
  | s, x :: rest =>
      pushList ser san (sessionPush ser san s x.1 x.2.1 x.2.2).1 rest

/-- The serialized text of a payload under the default serializer (defined
for payloads other than `undefined`). -/
def serializedText : Js → String
  | .str s => s
  | v => (jsonStringify v).getD ""

/-- The frame grammar exactly as claim C1 states it: an `id:` line exactly
when the id is non-empty, an `event:` line exactly when the event type
differs from `"message"`, one `data:` line per line of the sanitized
text, and a terminating blank line. -/
def frameClaimed (sanitized eventName eventId : String) : String :=
  (if eventId ≠ "" then "id: " ++ eventId ++ "\n" else "") ++
  (if eventName ≠ "message" then "event: " ++ eventName ++ "\n" else "") ++
  dataLines (splitOnNewline sanitized) ++ "\n"

/-- The frame grammar as amended: the `event:` line appears exactly when
the event type is non-empty and differs from `"message"`. -/
def frameAmended (sanitized eventName eventId : String) : String :=
  (if eventId ≠ "" then "id: " ++ eventId ++ "\n" else "") ++
  (if eventName ≠ "" ∧ eventName ≠ "message" then "event: " ++ eventName ++ "\n" else "") ++
  dataLines (splitOnNewline sanitized) ++ "\n"

/-- `Channel.broadcast`'s delivery loop over the recipient list: push the
same payload, event name and event id to each recipient in order; the
first push that throws aborts the loop and the error propagates. -/
def deliverTo (ser san : Js → Except JsErr Js) (data : Js)
    (eventName eventId : String) :
    List SessionState → List SessionState × Option JsErr
  | [] => ([], none)
  | s :: rest =>
    match sessionPush ser san s data eventName eventId with
    | (s1, some e) => (s1 :: rest, some e)
    | (s1, none) =>
        let r := deliverTo ser san data eventName eventId rest
        (s1 :: r.1, r.2)

/-- `Channel.broadcast` over its recipient list: deliver to each recipient
in order, then notify the channel observers once; the final component
counts the `broadcast` observer notifications (the `emit` after the loop
is skipped when a push threw). -/
def broadcastRun (ser san : Js → Except JsErr Js)
    (recipients : List SessionState) (data : Js) (eventName eventId : String) :
    List SessionState × Option JsErr × Nat :=
  let r := deliverTo ser san data eventName eventId recipients
  (r.1, r.2, match r.2 with | none => 1 | some _ => 0)

/-- `Channel.register` on the registry of session identities: idempotent
add of a connected session; registering a non-connected session throws an
`SseError`. -/
def register (registry : List Nat) (sid : Nat) (connected : Bool) :
    List Nat × Option JsErr :=
  if sid ∈ registry then (registry, none)
  else if connected = false then (registry, some JsErr.sseStateError)
  else (registry ++ [sid], none)

/-- `Channel.deregister`: idempotent removal from the registry. -/
def deregister (registry : List Nat) (sid : Nat) : List Nat :=
  if sid ∈ registry then registry.erase sid else registry

/-- The auto-cleanup handler `Channel.register` subscribes to the session's
`disconnected` notification: it deregisters the session. -/
def onSessionDisconnect (registry : List Nat) (sid : Nat) : List Nat :=
  deregister registry sid

/-- The seeding of `lastId` performed by the `Session` constructor: when
`trustClientEventId` is not explicitly `false`, take the
`last-event-id` header, else the `lastEventId` query parameter, else the
`evs_last_event_id` query parameter, else the empty string; otherwise
start empty. -/
def seedLastId (trustClientEventId : Option Bool)
    (headerLastEventId queryLastEventId queryEvsLastEventId : Option String) :
    String :=
  if trustClientEventId ≠ some false then
    headerLastEventId.getD (queryLastEventId.getD (queryEvsLastEventId.getD ""))
  else ""

/-- A user-supplied serializer or sanitizer hook that always throws. -/
def throwingHook : Js → Except JsErr Js :=
  fun _ => .error (JsErr.hookErr 7)

/-- The default serializer turns every payload other than `undefined` into
the string holding its serialized text. -/
theorem serialize_ok (d : Js) (h : d ≠ Js.jsUndefined) :
    serialize d = Js.str (serializedText d) := by
  cases d <;> first
    | rfl
    | exact absurd rfl h

/-- On a payload other than `undefined`, the default hooks succeed and the
text appended by `EventBuffer.push` is exactly the amended frame grammar
applied to the sanitized serialization of the payload. -/
theorem pushText_ok (d : Js) (n i : String) (h : d ≠ Js.jsUndefined) :
    pushText serializerHook sanitize d n i =
      (frameAmended (sanitizeString (serializedText d)) n i, none) := by
  have hs : serialize d = Js.str (serializedText d) := serialize_ok d h
  simp [pushText, serializerHook, hs, sanitize, splitLines, frameAmended]

/-- A successful `Session.push` on a connected session flushes one chunk,
clears the buffer and records the event id. -/
theorem sessionPush_ok (ser san : Js → Except JsErr Js) (s : SessionState)
    (d : Js) (n i t : String) (hc : s.isConnected = true)
    (ht : pushText ser san d n i = (t, none)) :
    sessionPush ser san s d n i =
      ({ s with buffer := "", writes := s.writes ++ [s.buffer ++ t],
                lastId := i }, none) := by
  simp [sessionPush, hc, ht]

/-- A successful default-hook `Session.push` on a connected session, in
terms of the frame grammar. -/
theorem sessionPush_default_ok (s : SessionState) (d : Js) (n i : String)
    (hc : s.isConnected = true) (hd : d ≠ Js.jsUndefined) :
    sessionPush serializerHook sanitize s d n i =
      ({ s with buffer := "",
                writes := s.writes ++
                  [s.buffer ++ frameAmended (sanitizeString (serializedText d)) n i],
                lastId := i }, none) :=
  sessionPush_ok serializerHook sanitize s d n i _ hc (pushText_ok d n i hd)

/-- `Session.push` never changes the connected flag. -/
theorem sessionPush_keeps_connected (ser san : Js → Except JsErr Js)
    (s : SessionState) (d : Js) (n i : String) :
    (sessionPush ser san s d n i).1.isConnected = s.isConnected := by
  unfold sessionPush
  split
  · rfl
  · split <;> rfl

/-- A list of buffer operations that all succeed appends the concatenation
of the individual frame texts, in call order. -/
theorem applyOps_ok (ser san : Js → Except JsErr Js) (ops : List BufOp) :
    ∀ buf : String, (∀ op ∈ ops, (opText ser san op).2 = none) →
      applyOps ser san buf ops =
        (buf ++ concatTexts (ops.map fun op => (opText ser san op).1), none) := by
  induction ops with
  | nil =>
      intro buf _
      simp [applyOps, concatTexts, String.append_empty]
  | cons op rest ih =>
      intro buf h
      have h1 : (opText ser san op).2 = none := h op (by simp)
      obtain ⟨t, ht⟩ : ∃ t, opText ser san op = (t, none) :=
        ⟨(opText ser san op).1, by rw [← h1]⟩
      simp only [applyOps, applyOp, ht]
      rw [ih (buf ++ t) (fun op hop => h op (by simp [hop]))]
      simp [concatTexts, ht, String.append_assoc]

/-- When every recipient's push succeeds, the broadcast delivery loop
updates every recipient and reports no error. -/
theorem deliverTo_all_ok (ser san : Js → Except JsErr Js) (d : Js)
    (n i : String) (rs : List SessionState)
    (h : ∀ s ∈ rs, (sessionPush ser san s d n i).2 = none) :
    deliverTo ser san d n i rs =
      (rs.map (fun s => (sessionPush ser san s d n i).1), none) := by
  induction rs with
  | nil => rfl
  | cons s rest ih =>
      have h1 : (sessionPush ser san s d n i).2 = none := h s (by simp)
      obtain ⟨s1, hs1⟩ : ∃ s1, sessionPush ser san s d n i = (s1, none) :=
        ⟨(sessionPush ser san s d n i).1, by rw [← h1]⟩
      simp only [deliverTo, hs1]
      rw [ih (fun x hx => h x (by simp [hx]))]
      simp [hs1]

/-- When one recipient's push throws, the broadcast delivery loop stops
there: earlier recipients were updated, later recipients are untouched,
and the error propagates. -/
theorem deliverTo_abort (ser san : Js → Except JsErr Js) (d : Js)
    (n i : String) (pre : List SessionState) (f : SessionState)
    (post : List SessionState) (e : JsErr)
    (hpre : ∀ s ∈ pre, (sessionPush ser san s d n i).2 = none)
    (hf : (sessionPush ser san f d n i).2 = some e) :
    deliverTo ser san d n i (pre ++ f :: post) =
      (pre.map (fun s => (sessionPush ser san s d n i).1) ++
        (sessionPush ser san f d n i).1 :: post, some e) := by
  induction pre with
  | nil =>
      obtain ⟨f1, hf1⟩ : ∃ f1, sessionPush ser san f d n i = (f1, some e) :=
        ⟨(sessionPush ser san f d n i).1, by rw [← hf]⟩
      simp only [List.nil_append, deliverTo, hf1, List.map_nil, List.nil_append]
  | cons s rest ih =>
      have h1 : (sessionPush ser san s d n i).2 = none := hpre s (by simp)
      obtain ⟨s1, hs1⟩ : ∃ s1, sessionPush ser san s d n i = (s1, none) :=
        ⟨(sessionPush ser san s d n i).1, by rw [← h1]⟩
      simp only [List.cons_append, deliverTo, hs1, List.append_eq]
      rw [ih (fun x hx => hpre x (by simp [hx]))]
      simp [hs1]

/-- `Channel.register` keeps the registry free of duplicates. -/
theorem register_nodup (registry : List Nat) (sid : Nat) (connected : Bool)
    (h : registry.Nodup) : (register registry sid connected).1.Nodup := by
  unfold register
  split
  · exact h
  · split
    · exact h
    · next hmem _ =>
        simpa [List.nodup_append] using And.intro h hmem

/-- Claim C1 (as stated) is false: pushing with the empty event type, which
differs from `"message"`, produces no `event:` line, while the claimed
frame grammar would contain one. -/
theorem claim1_counterexample :
    bufferPush serializerHook sanitize "" (Js.str "hi") "" "e1" =
      ("id: e1\ndata: hi\n\n", none) ∧
    (("" : String) == "message") = false ∧
    frameClaimed (sanitizeString "hi") "" "e1" = "id: e1\nevent: \ndata: hi\n\n" ∧
    (("id: e1\ndata: hi\n\n" : String) == "id: e1\nevent: \ndata: hi\n\n") = false := by
  decide

/-- Claim C1, amended: the appended frame is an `id:` line exactly when the
event id is non-empty, an `event:` line exactly when the event type is
non-empty and differs from `"message"`, one `data:` line per line of the
sanitized serialization, and a terminating blank line; and the end-to-end
scenario of pushing the object with field `x = 1` under type `update` and
id `e1` on a connected session writes exactly that frame. -/
theorem claim1_frame_format :
    (∀ (buf : String) (d : Js) (n i : String), d ≠ Js.jsUndefined →
      bufferPush serializerHook sanitize buf d n i =
        (buf ++ frameAmended (sanitizeString (serializedText d)) n i, none)) ∧
    sessionPush serializerHook sanitize connectedSession
        (Js.obj [("x", JsPrim.pNum 1)]) "update" "e1" =
      ({ connectedSession with
         lastId := "e1",
         writes := ["id: e1\nevent: update\ndata: \x7b\"x\":1\x7d\n\n"] }, none) := by
  constructor
  · intro buf d n i h
    simp [bufferPush, pushText_ok d n i h]
  · decide

/-- Witness for claim C1 at a concrete input. -/
theorem claim1_witness :
    Js.str "a" ≠ Js.jsUndefined ∧
    bufferPush serializerHook sanitize "" (Js.str "a") "note" "i1" =
      ("" ++ frameAmended (sanitizeString (serializedText (Js.str "a"))) "note" "i1",
        none) :=
  ⟨by decide, claim1_frame_format.1 "" (Js.str "a") "note" "i1" (by decide)⟩

/-- Claim C2, amended: `Session.push` on a session that is not connected —
before the bootstrap has completed or after disconnection — throws an
`SseError` and leaves the session (in particular the list of written
chunks) completely unchanged. -/
theorem claim2_push_not_connected :
    ∀ (ser san : Js → Except JsErr Js) (s : SessionState) (d : Js) (n i : String),
      s.isConnected = false →
      sessionPush ser san s d n i = (s, some JsErr.sseStateError) := by
  intro ser san s d n i h
  simp [sessionPush, h]

/-- Witness for claim C2 at a concrete input. -/
theorem claim2_witness :
    (freshSession "x").isConnected = false ∧
    sessionPush serializerHook sanitize (freshSession "x") (Js.str "d") "message" "i1" =
      (freshSession "x", some JsErr.sseStateError) :=
  ⟨by decide,
    claim2_push_not_connected serializerHook sanitize (freshSession "x")
      (Js.str "d") "message" "i1" (by decide)⟩

/-- Claim C2 (as stated) is false in its universal part: when the abort
signal fires before the scheduled bootstrap step and the bootstrap then
runs, a subsequent push on the previously disconnected session succeeds
and writes a chunk. -/
theorem claim2_counterexample :
    (onDisconnected (freshSession "")).isConnected = false ∧
    (sessionPush serializerHook sanitize
        (sessionInit cfg0 (onDisconnected (freshSession "")))
        (Js.str "hi") "message" "e9").2 = none ∧
    (sessionPush serializerHook sanitize
        (sessionInit cfg0 (onDisconnected (freshSession "")))
        (Js.str "hi") "message" "e9").1.writes =
      ["retry: 2000\n\n", "id: e9\ndata: hi\n\n"] := by
  decide

/-- Claim C3, amended: when every recipient's push succeeds, each recipient
of the broadcast receives the event and the channel observers are
notified exactly once per broadcast call; when one recipient's push
throws, recipients later in iteration order receive nothing, the error
propagates to the broadcaster, and the observer notification is skipped. -/
theorem claim3_broadcast :
    (∀ (ser san : Js → Except JsErr Js) (d : Js) (n i : String)
        (rs : List SessionState),
      (∀ s ∈ rs, (sessionPush ser san s d n i).2 = none) →
      broadcastRun ser san rs d n i =
        (rs.map (fun s => (sessionPush ser san s d n i).1), none, 1)) ∧
    (∀ (ser san : Js → Except JsErr Js) (d : Js) (n i : String)
        (pre : List SessionState) (f : SessionState)
        (post : List SessionState) (e : JsErr),
      (∀ s ∈ pre, (sessionPush ser san s d n i).2 = none) →
      (sessionPush ser san f d n i).2 = some e →
      broadcastRun ser san (pre ++ f :: post) d n i =
        (pre.map (fun s => (sessionPush ser san s d n i).1) ++
          (sessionPush ser san f d n i).1 :: post, some e, 0)) := by
  constructor
  · intro ser san d n i rs h
    simp [broadcastRun, deliverTo_all_ok ser san d n i rs h]
  · intro ser san d n i pre f post e hpre hf
    simp [broadcastRun, deliverTo_abort ser san d n i pre f post e hpre hf]

/-- Witness for claim C3 at a concrete input. -/
theorem claim3_witness :
    (∀ s ∈ [connectedSession],
      (sessionPush serializerHook sanitize s (Js.str "m") "message" "b1").2 = none) ∧
    broadcastRun serializerHook sanitize [connectedSession] (Js.str "m") "message" "b1" =
      ([connectedSession].map
          (fun s => (sessionPush serializerHook sanitize s (Js.str "m") "message" "b1").1),
        none, 1) :=
  ⟨by decide,
    claim3_broadcast.1 serializerHook sanitize (Js.str "m") "message" "b1"
      [connectedSession] (by decide)⟩

/-- Claim C3 (as stated) is false: with two recipients, the first of which
disconnected before the push, the second recipient receives nothing and
the channel observers are notified zero times, not once. -/
theorem claim3_counterexample :
    (freshSession "").isConnected = false ∧
    connectedSession.writes = [] ∧
    broadcastRun serializerHook sanitize [freshSession "", connectedSession]
        (Js.str "m") "message" "bid" =
      ([freshSession "", connectedSession], some JsErr.sseStateError, 0) := by
  decide

/-- Claim C4: the code transitions out of `disconnected`.  When the abort
signal fires before the scheduled bootstrap step runs, the session is
disconnected, yet the bootstrap then marks it connected again and starts
a keep-alive timer that nothing will ever clear. -/
theorem claim4_reconnect_after_disconnect :
    (onDisconnected (freshSession "")).isConnected = false ∧
    (sessionInit cfg0 (onDisconnected (freshSession ""))).isConnected = true ∧
    (sessionInit cfg0 (onDisconnected (freshSession ""))).keepAliveActive = true := by
  exact ⟨rfl, rfl, rfl⟩

/-- Claim C5, amended: a successful `Session.push` (the path `iterate` and
`stream` delegate to) records the resolved event id as `lastId`, and
after a sequence of pushes ending in a push with id `x.2.2`, `lastId`
equals that last id; events queued directly on the buffer inside `batch`
do not update `lastId` (see the counterexample). -/
theorem claim5_last_id :
    (∀ (s : SessionState) (d : Js) (n i : String),
      s.isConnected = true → d ≠ Js.jsUndefined →
      (sessionPush serializerHook sanitize s d n i).1.lastId = i ∧
      (sessionPush serializerHook sanitize s d n i).2 = none) ∧
    (∀ (s : SessionState) (es : List (Js × String × String))
        (x : Js × String × String),
      s.isConnected = true → (∀ y ∈ es, y.1 ≠ Js.jsUndefined) → x.1 ≠ Js.jsUndefined →
      (pushList serializerHook sanitize s (es ++ [x])).lastId = x.2.2) := by
  constructor
  · intro s d n i hc hd
    rw [sessionPush_default_ok s d n i hc hd]
    exact ⟨rfl, rfl⟩
  · intro s es
    induction es generalizing s with
    | nil =>
        intro x hc _ hx
        show (pushList serializerHook sanitize
          (sessionPush serializerHook sanitize s x.1 x.2.1 x.2.2).1 []).lastId = x.2.2
        rw [sessionPush_default_ok s x.1 x.2.1 x.2.2 hc hx]
        rfl
    | cons y rest ih =>
        intro x hc hall hx
        have hy : y.1 ≠ Js.jsUndefined := hall y (by simp)
        have hc2 : (sessionPush serializerHook sanitize s y.1 y.2.1 y.2.2).1.isConnected = true := by
          rw [sessionPush_keeps_connected]
          exact hc
        show (pushList serializerHook sanitize
          (sessionPush serializerHook sanitize s y.1 y.2.1 y.2.2).1 (rest ++ [x])).lastId = x.2.2
        exact ih _ x hc2 (fun z hz => hall z (by simp [hz])) hx

/-- Witness for claim C5 at a concrete input. -/
theorem claim5_witness :
    connectedSession.isConnected = true ∧
    (∀ y ∈ [(Js.str "a", "message", "i1")], y.1 ≠ Js.jsUndefined) ∧
    (Js.str "b", "message", "i2").1 ≠ Js.jsUndefined ∧
    (pushList serializerHook sanitize connectedSession
        ([(Js.str "a", "message", "i1")] ++ [(Js.str "b", "message", "i2")])).lastId = "i2" :=
  ⟨by decide, by decide, by decide,
    claim5_last_id.2 connectedSession [(Js.str "a", "message", "i1")]
      (Js.str "b", "message", "i2") (by decide) (by decide) (by decide)⟩

/-- Claim C5 (as stated) is false for events queued inside `batch`: a frame
carrying id `b1` is written to the connection, yet `lastId` does not
become `b1`. -/
theorem claim5_counterexample :
    sessionBatch serializerHook sanitize connectedSession
        [BufOp.push (Js.str "d") "message" "b1"] =
      ({ connectedSession with writes := ["id: b1\ndata: d\n\n"] }, none) ∧
    ((sessionBatch serializerHook sanitize connectedSession
        [BufOp.push (Js.str "d") "message" "b1"]).1.lastId == "b1") = false := by
  decide

/-- Claim C6: all events queued on the buffer inside one `batch` callback
produce exactly one write containing the queued frames concatenated in
call order, and every successful `push` outside `batch` produces exactly
one write of its own. -/
theorem claim6_batch_single_write :
    (∀ (ser san : Js → Except JsErr Js) (s : SessionState) (ops : List BufOp),
      s.isConnected = true → s.buffer = "" →
      (∀ op ∈ ops, (opText ser san op).2 = none) →
      sessionBatch ser san s ops =
        ({ s with
           buffer := "",
           writes := s.writes ++
             [concatTexts (ops.map fun op => (opText ser san op).1)] }, none)) ∧
    (∀ (ser san : Js → Except JsErr Js) (s : SessionState) (d : Js) (n i : String),
      s.isConnected = true → s.buffer = "" →
      (pushText ser san d n i).2 = none →
      (sessionPush ser san s d n i).1.writes =
        s.writes ++ [(pushText ser san d n i).1]) := by
  constructor
  · intro ser san s ops _ hbuf hops
    have h := applyOps_ok ser san ops "" hops
    rw [String.empty_append] at h
    simp [sessionBatch, hbuf, h]
  · intro ser san s d n i hc hbuf hp
    have h2 : pushText ser san d n i = ((pushText ser san d n i).1, none) := by
      rw [← hp]
    rw [sessionPush_ok ser san s d n i _ hc h2, hbuf]
    simp [String.empty_append]

/-- Witness for claim C6 at a concrete input. -/
theorem claim6_witness :
    connectedSession.isConnected = true ∧
    connectedSession.buffer = "" ∧
    (∀ op ∈ [BufOp.push (Js.str "a") "n1" "i1", BufOp.comment "ping"],
      (opText serializerHook sanitize op).2 = none) ∧
    sessionBatch serializerHook sanitize connectedSession
        [BufOp.push (Js.str "a") "n1" "i1", BufOp.comment "ping"] =
      ({ connectedSession with
         buffer := "",
         writes := connectedSession.writes ++
           [concatTexts
             ([BufOp.push (Js.str "a") "n1" "i1", BufOp.comment "ping"].map
               fun op => (opText serializerHook sanitize op).1)] }, none) :=
  ⟨by decide, by decide, by decide,
    claim6_batch_single_write.1 serializerHook sanitize connectedSession
      [BufOp.push (Js.str "a") "n1" "i1", BufOp.comment "ping"]
      (by decide) (by decide) (by decide)⟩

/-- Claim C7: when the disconnect notification of a registered session
fires, the channel removes it from the registry, the session count drops
by exactly one, and no reference to the session remains — all without an
explicit deregister call. -/
theorem claim7_auto_cleanup :
    ∀ (registry : List Nat) (sid : Nat), registry.Nodup → sid ∈ registry →
      onSessionDisconnect registry sid = registry.erase sid ∧
      (onSessionDisconnect registry sid).length + 1 = registry.length ∧
      sid ∉ onSessionDisconnect registry sid := by
  intro registry sid hnd hm
  have heq : onSessionDisconnect registry sid = registry.erase sid := by
    simp [onSessionDisconnect, deregister, hm]
  refine ⟨heq, ?_, ?_⟩
  · rw [heq, List.length_erase_of_mem hm]
    have hpos : 0 < registry.length := List.length_pos_of_mem hm
    omega
  · rw [heq]
    exact hnd.not_mem_erase

/-- Witness for claim C7 at a concrete input. -/
theorem claim7_witness :
    ([1, 2] : List Nat).Nodup ∧ 2 ∈ ([1, 2] : List Nat) ∧
    (onSessionDisconnect [1, 2] 2 = ([1, 2] : List Nat).erase 2 ∧
      (onSessionDisconnect [1, 2] 2).length + 1 = ([1, 2] : List Nat).length ∧
      2 ∉ onSessionDisconnect [1, 2] 2) :=
  ⟨by decide, by decide, claim7_auto_cleanup [1, 2] 2 (by decide) (by decide)⟩

/-- Claim C8: a throwing serializer or sanitizer hook makes
`EventBuffer.push` fail with the hook's error and leaves the accumulator
exactly as it was; `Session.push` propagates the same error with the
session unchanged; and under the default hooks, push succeeds on every
JSON-serializable payload (every modelled value other than `undefined`). -/
theorem claim8_serialization_errors :
    (∀ (ser san : Js → Except JsErr Js) (buf : String) (d : Js) (n i : String)
        (e : JsErr), ser d = .error e →
      bufferPush ser san buf d n i = (buf, some e)) ∧
    (∀ (ser san : Js → Except JsErr Js) (buf : String) (d : Js) (n i : String)
        (v : Js) (e : JsErr), ser d = .ok v → san v = .error e →
      bufferPush ser san buf d n i = (buf, some e)) ∧
    (∀ (buf : String) (d : Js) (n i : String), d ≠ Js.jsUndefined →
      (bufferPush serializerHook sanitize buf d n i).2 = none) ∧
    (∀ (ser san : Js → Except JsErr Js) (s : SessionState) (d : Js)
        (n i : String) (e : JsErr), s.isConnected = true → ser d = .error e →
      sessionPush ser san s d n i = (s, some e)) := by
  refine ⟨?_, ?_, ?_, ?_⟩
  · intro ser san buf d n i e h
    simp [bufferPush, pushText, h, String.append_empty]
  · intro ser san buf d n i v e h1 h2
    simp [bufferPush, pushText, h1, h2, String.append_empty]
  · intro buf d n i hd
    simp [bufferPush, pushText_ok d n i hd]
  · intro ser san s d n i e hc h
    have hp : pushText ser san d n i = ("", some e) := by
      simp [pushText, h]
    rw [sessionPush, if_neg (by simp [hc]), hp]
    show ({ s with buffer := s.buffer ++ "" }, some e) = (s, some e)
    rw [String.append_empty]

/-- Witness for claim C8 at a concrete input. -/
theorem claim8_witness :
    throwingHook (Js.str "x") = .error (JsErr.hookErr 7) ∧
    bufferPush throwingHook sanitize "b" (Js.str "x") "message" "i1" =
      ("b", some (JsErr.hookErr 7)) :=
  ⟨rfl,
    claim8_serialization_errors.1 throwingHook sanitize "b" (Js.str "x")
      "message" "i1" (JsErr.hookErr 7) rfl⟩

/-- Claim C9: with `trustClientEventId` enabled (anything but an explicit
`false`), `lastId` is seeded from the `last-event-id` header, else the
`lastEventId` query parameter, else the `evs_last_event_id` query
parameter, else empty; with it disabled, `lastId` starts empty regardless
of the supplied hint. -/
theorem claim9_resumption_seed :
    (∀ (t : Option Bool) (q1 q2 : Option String) (v : String), t ≠ some false →
      seedLastId t (some v) q1 q2 = v) ∧
    (∀ (t : Option Bool) (q2 : Option String) (v : String), t ≠ some false →
      seedLastId t none (some v) q2 = v) ∧
    (∀ (t : Option Bool) (v : String), t ≠ some false →
      seedLastId t none none (some v) = v) ∧
    (∀ t : Option Bool, t ≠ some false →
      seedLastId t none none none = "") ∧
    (∀ h q1 q2 : Option String, seedLastId (some false) h q1 q2 = "") := by
  refine ⟨?_, ?_, ?_, ?_, ?_⟩ <;> intros <;> simp_all [seedLastId]

/-- Witness for claim C9 at a concrete input. -/
theorem claim9_witness :
    (none : Option Bool) ≠ some false ∧
    seedLastId none (some "abc") none none = "abc" :=
  ⟨by decide, claim9_resumption_seed.1 none none none "abc" (by decide)⟩

/-- Claim C10: pushing `undefined` under the default hooks fails — the
default serializer returns the non-string `undefined`, the default
sanitizer then throws a `TypeError` — and the buffer and session are left
exactly unchanged. -/
theorem claim10_undefined_push_throws :
    serialize Js.jsUndefined = Js.jsUndefined ∧
    sanitize Js.jsUndefined = Except.error JsErr.typeError ∧
    bufferPush serializerHook sanitize "" Js.jsUndefined "message" "u1" =
      ("", some JsErr.typeError) ∧
    sessionPush serializerHook sanitize connectedSession Js.jsUndefined "message" "u1" =
      (connectedSession, some JsErr.typeError) := by
  refine ⟨rfl, rfl, by decide, by decide⟩

end StreamLLM

